import Mathlib

/-!
Verification development for the landsat_utils radiometric conversion
library. A raster band is modelled as a 2D grid of real numbers
(`List (List ℝ)`); each conversion's elementwise formula and its
nodata masking (`trg_ar[src_ar == no_data] = no_data`) are embedded as
pure functions on such grids, and the file-level behaviour of each
conversion (existence check on the output path, opening the source,
writing the destination) is embedded as a function on a small
association-list file-system model. The Earth-Sun distance helper
from au.py is embedded over a calendar date-time structure, with
Python dynamic typing of the `date` argument modelled by a sum type
and Python exceptions modelled by `Except`.
-/

namespace LandsatUtils

/-- Grid of samples of one raster band, row major: `band[i][j]` is the
sample at row `i`, column `j`, mirroring a 2D numpy array. -/
abbrev Band := List (List ℝ)

/-- Elementwise application of a scalar formula to a band, mirroring a
numpy elementwise expression such as `gain * src_ar + bias`. -/
def mapBand (f : ℝ → ℝ) (a : Band) : Band :=
  a.map (List.map f)

/-- Nodata reinstatement `trg_ar[src_ar == no_data] = no_data`: at every
cell where the source sample equals the nodata sentinel exactly, the
target sample is replaced by the sentinel. -/
noncomputable def maskBand (no_data : ℝ) (src trg : Band) : Band :=
  List.zipWith (List.zipWith fun s t => if s = no_data then no_data else t) src trg

/-- Sample of a band at row `i`, column `j`, if in range. -/
def cell (a : Band) (i j : ℕ) : Option ℝ :=
  a[i]?.bind fun r => r[j]?

theorem cell_mapBand (f : ℝ → ℝ) (a : Band) (i j : ℕ) :
    cell (mapBand f a) i j = (cell a i j).map f := by
  unfold cell mapBand
  rw [List.getElem?_map]
  cases a[i]? with
  | none => rfl
  | some r => simp

theorem mapBand_mapBand (f g : ℝ → ℝ) (a : Band) :
    mapBand g (mapBand f a) = mapBand (fun s => g (f s)) a := by
  simp [mapBand, List.map_map, Function.comp]

theorem maskBand_mapBand (no_data : ℝ) (f : ℝ → ℝ) (a : Band) :
    maskBand no_data a (mapBand f a) =
      mapBand (fun s => if s = no_data then no_data else f s) a := by
  unfold maskBand mapBand
  rw [List.zipWith_map_right]
  rw [List.zipWith_same]
  apply List.map_congr_left
  intro r _
  rw [List.zipWith_map_right, List.zipWith_same]

theorem cell_mask_map_self (no_data : ℝ) (f : ℝ → ℝ) (a : Band) (i j : ℕ)
    (h : cell a i j = some no_data) :
    cell (maskBand no_data a (mapBand f a)) i j = some no_data := by
  rw [maskBand_mapBand, cell_mapBand, h]
  simp

theorem cell_mask_map_of_ne (no_data x : ℝ) (f : ℝ → ℝ) (a : Band) (i j : ℕ)
    (h : cell a i j = some x) (hx : x ≠ no_data) :
    cell (maskBand no_data a (mapBand f a)) i j = some (f x) := by
  rw [maskBand_mapBand, cell_mapBand, h]
  simp [hx]

/-- Degrees to radians, mirroring `np.radians`. -/
noncomputable def radians (x : ℝ) : ℝ := x * Real.pi / 180

namespace radiance

/-- Array computation of radiance.gainbias (radiance.py lines 67-68):
`trg_ar = gain * src_ar + bias; trg_ar[src_ar == no_data] = no_data`. -/
noncomputable def gainbias_ar (gain bias no_data : ℝ) (src_ar : Band) : Band :=
  maskBand no_data src_ar (mapBand (fun s => gain * s + bias) src_ar)

/-- Array computation of radiance.scaling (radiance.py lines 149-150):
`trg_ar = ((lmax - lmin)/(qcalmax - qcalmin)) * (src_ar - qcalmin) + lmin`
followed by nodata reinstatement. -/
noncomputable def scaling_ar (lmin lmax qcalmin qcalmax no_data : ℝ) (src_ar : Band) : Band :=
  maskBand no_data src_ar
    (mapBand (fun s => ((lmax - lmin) / (qcalmax - qcalmin)) * (s - qcalmin) + lmin) src_ar)

end radiance

namespace reflectance

/-- Array computation of reflectance.gainbias (reflectance.py lines 71-76):
`trg_ar = gain * src_ar + bias`, then unconditionally
`trg_ar = trg_ar / np.sin(np.radians(sun_elev))`, then nodata
reinstatement. -/
noncomputable def gainbias_ar (gain bias sun_elev no_data : ℝ) (src_ar : Band) : Band :=
  let trg_ar := mapBand (fun s => gain * s + bias) src_ar
  let trg_ar := mapBand (fun t => t / Real.sin (radians sun_elev)) trg_ar
  maskBand no_data src_ar trg_ar

/-- Array computation of reflectance.ref (reflectance.py lines 153-161):
`solar_zenith = 90 - sun_elev`;
`trg_ar = (np.pi * src_ar * earth_sun_dist**2) / esun * np.cos(np.radians(solar_zenith))`;
then, only when `sun_elev` is truthy (nonzero),
`trg_ar = trg_ar / np.sin(np.radians(sun_elev))`; then nodata
reinstatement keyed on the source array. -/
noncomputable def ref_ar (earth_sun_dist sun_elev esun no_data : ℝ) (src_ar : Band) : Band :=
  let solar_zenith := 90 - sun_elev
  let trg_ar := mapBand
    (fun s => Real.pi * s * earth_sun_dist ^ 2 / esun * Real.cos (radians solar_zenith)) src_ar
  let trg_ar :=
    if sun_elev ≠ 0 then mapBand (fun t => t / Real.sin (radians sun_elev)) trg_ar else trg_ar
  maskBand no_data src_ar trg_ar

end reflectance

namespace brightness

/-- Array computation of brightness.toa_rad_to_toa_bright (brightness.py
lines 67-68): `trg_ar = k2 / np.log((k1 / src_ar) + 1)` followed by
nodata reinstatement. -/
noncomputable def toa_rad_to_toa_bright_ar (k1 k2 no_data : ℝ) (src_ar : Band) : Band :=
  maskBand no_data src_ar (mapBand (fun s => k2 / Real.log (k1 / s + 1)) src_ar)

/-- Array computation of brightness.dn_to_toa_bright (brightness.py lines
142-146): intermediate `rad_ar = (gain * src_ar) + bias`, then
`bri_ar = k2 / np.log((k1 / rad_ar) + 1)`, then
`bri_ar[src_ar == no_data] = no_data` — the mask is keyed on the
original source array, not on `rad_ar`. -/
noncomputable def dn_to_toa_bright_ar (gain bias k1 k2 no_data : ℝ) (src_ar : Band) : Band :=
  let rad_ar := mapBand (fun s => gain * s + bias) src_ar
  let bri_ar := mapBand (fun r => k2 / Real.log (k1 / r + 1)) rad_ar
  maskBand no_data src_ar bri_ar

end brightness

namespace toar

/-- Array computation of toar.toa_radiance (toar.py lines 66-67):
`trg_ar = gain * src_ar + bias` followed by nodata reinstatement. -/
noncomputable def toa_radiance_ar (gain bias no_data : ℝ) (src_ar : Band) : Band :=
  maskBand no_data src_ar (mapBand (fun s => gain * s + bias) src_ar)

/-- Array computation of toar.toa_reflectance (toar.py lines 141-142):
`trg_ar = gain * src_ar + bias` followed by nodata reinstatement — the
same computation as toar.toa_radiance, with no sun-elevation factor. -/
noncomputable def toa_reflectance_ar (gain bias no_data : ℝ) (src_ar : Band) : Band :=
  maskBand no_data src_ar (mapBand (fun s => gain * s + bias) src_ar)

/-- Array computation of toar.toa_brightness (toar.py lines 216-217):
`trg_ar = k2 / np.log((k1 / src_ar) + 1)` followed by nodata
reinstatement. -/
noncomputable def toa_brightness_ar (k1 k2 no_data : ℝ) (src_ar : Band) : Band :=
  maskBand no_data src_ar (mapBand (fun s => k2 / Real.log (k1 / s + 1)) src_ar)

end toar

/-- Georeferencing metadata (geotransform and projection) copied verbatim
from source to destination. -/
structure GeoMeta where
  geoTransform : List ℝ
  projection : String

/-- A single-band raster file: its sample grid, nodata sentinel and
georeferencing. -/
structure Raster where
  band : Band
  noData : ℝ
  meta : GeoMeta

/-- Errors raised by the conversions: the output-exists ValueError and an
unreadable source (propagated from the raster library). -/
inductive ConvError where
  | alreadyExists (path : String)
  | sourceUnreadable (path : String)
deriving DecidableEq

/-- A file system mapping paths to single-band rasters. -/
abbrev FS := List (String × Raster)

namespace radiance

/-- File-level radiance.gainbias: check that the output does not already
exist (raising ValueError otherwise), open the source, compute the
gain-bias radiance array with nodata reinstatement, and write it to a
fresh destination with the source's metadata and nodata marker. -/
noncomputable def gainbias (fs : FS) (input_scene : String) (gain bias : ℝ)
    (output_scene : String) : FS × Except ConvError Unit :=
  if (fs.lookup output_scene).isSome then
    (fs, .error (.alreadyExists output_scene))
  else
    match fs.lookup input_scene with
    | none => (fs, .error (.sourceUnreadable input_scene))
    | some src =>
      ((output_scene, ⟨gainbias_ar gain bias src.noData src.band, src.noData, src.meta⟩) :: fs,
        .ok ())

/-- File-level radiance.scaling, same existence check and I/O contract as
radiance.gainbias with the spectral-scaling formula. -/
noncomputable def scaling (fs : FS) (input_scene : String) (lmin lmax qcalmin qcalmax : ℝ)
    (output_scene : String) : FS × Except ConvError Unit :=
  if (fs.lookup output_scene).isSome then
    (fs, .error (.alreadyExists output_scene))
  else
    match fs.lookup input_scene with
    | none => (fs, .error (.sourceUnreadable input_scene))
    | some src =>
      ((output_scene,
        ⟨scaling_ar lmin lmax qcalmin qcalmax src.noData src.band, src.noData, src.meta⟩) :: fs,
        .ok ())

end radiance

namespace reflectance

/-- File-level reflectance.gainbias with the sun-elevation corrected
gain-bias formula. -/
noncomputable def gainbias (fs : FS) (input_scene : String) (gain bias sun_elev : ℝ)
    (output_scene : String) : FS × Except ConvError Unit :=
  if (fs.lookup output_scene).isSome then
    (fs, .error (.alreadyExists output_scene))
  else
    match fs.lookup input_scene with
    | none => (fs, .error (.sourceUnreadable input_scene))
    | some src =>
      ((output_scene,
        ⟨gainbias_ar gain bias sun_elev src.noData src.band, src.noData, src.meta⟩) :: fs,
        .ok ())

/-- File-level reflectance.ref with the physical reflectance formula. -/
noncomputable def ref (fs : FS) (input_scene : String) (earth_sun_dist sun_elev esun : ℝ)
    (output_scene : String) : FS × Except ConvError Unit :=
  if (fs.lookup output_scene).isSome then
    (fs, .error (.alreadyExists output_scene))
  else
    match fs.lookup input_scene with
    | none => (fs, .error (.sourceUnreadable input_scene))
    | some src =>
      ((output_scene,
        ⟨ref_ar earth_sun_dist sun_elev esun src.noData src.band, src.noData, src.meta⟩) :: fs,
        .ok ())

end reflectance

namespace brightness

/-- File-level brightness.toa_rad_to_toa_bright. -/
noncomputable def toa_rad_to_toa_bright (fs : FS) (input_scene : String) (k1 k2 : ℝ)
    (output_scene : String) : FS × Except ConvError Unit :=
  if (fs.lookup output_scene).isSome then
    (fs, .error (.alreadyExists output_scene))
  else
    match fs.lookup input_scene with
    | none => (fs, .error (.sourceUnreadable input_scene))
    | some src =>
      ((output_scene,
        ⟨toa_rad_to_toa_bright_ar k1 k2 src.noData src.band, src.noData, src.meta⟩) :: fs,
        .ok ())

/-- File-level brightness.dn_to_toa_bright. -/
noncomputable def dn_to_toa_bright (fs : FS) (input_scene : String) (gain bias k1 k2 : ℝ)
    (output_scene : String) : FS × Except ConvError Unit :=
  if (fs.lookup output_scene).isSome then
    (fs, .error (.alreadyExists output_scene))
  else
    match fs.lookup input_scene with
    | none => (fs, .error (.sourceUnreadable input_scene))
    | some src =>
      ((output_scene,
        ⟨dn_to_toa_bright_ar gain bias k1 k2 src.noData src.band, src.noData, src.meta⟩) :: fs,
        .ok ())

end brightness

namespace toar

/-- File-level toar.toa_radiance. -/
noncomputable def toa_radiance (fs : FS) (input_scene : String) (gain bias : ℝ)
    (output_scene : String) : FS × Except ConvError Unit :=
  if (fs.lookup output_scene).isSome then
    (fs, .error (.alreadyExists output_scene))
  else
    match fs.lookup input_scene with
    | none => (fs, .error (.sourceUnreadable input_scene))
    | some src =>
      ((output_scene,
        ⟨toa_radiance_ar gain bias src.noData src.band, src.noData, src.meta⟩) :: fs, .ok ())

/-- File-level toar.toa_reflectance. -/
noncomputable def toa_reflectance (fs : FS) (input_scene : String) (gain bias : ℝ)
    (output_scene : String) : FS × Except ConvError Unit :=
  if (fs.lookup output_scene).isSome then
    (fs, .error (.alreadyExists output_scene))
  else
    match fs.lookup input_scene with
    | none => (fs, .error (.sourceUnreadable input_scene))
    | some src =>
      ((output_scene,
        ⟨toa_reflectance_ar gain bias src.noData src.band, src.noData, src.meta⟩) :: fs, .ok ())

/-- File-level toar.toa_brightness. -/
noncomputable def toa_brightness (fs : FS) (input_scene : String) (k1 k2 : ℝ)
    (output_scene : String) : FS × Except ConvError Unit :=
  if (fs.lookup output_scene).isSome then
    (fs, .error (.alreadyExists output_scene))
  else
    match fs.lookup input_scene with
    | none => (fs, .error (.sourceUnreadable input_scene))
    | some src =>
      ((output_scene,
        ⟨toa_brightness_ar k1 k2 src.noData src.band, src.noData, src.meta⟩) :: fs, .ok ())

end toar

namespace au

/-- Calendar date-time with the fields of `datetime.datetime` used by
au.earth_sun_dist (year, month, day, hour, minute, second). -/
structure DateTime where
  year : ℕ
  month : ℕ
  day : ℕ
  hour : ℕ
  minute : ℕ
  second : ℕ
deriving DecidableEq

/-- Gregorian leap-year rule, as implemented by Python's calendar
handling underlying `datetime.timetuple`. -/
def isLeap (y : ℕ) : Bool :=
  (y % 4 = 0 && y % 100 ≠ 0) || y % 400 = 0

/-- Days of the year strictly before the first day of month `m`
(1-based), in a non-leap year. -/
def daysBeforeMonth (m : ℕ) : ℕ :=
  match m with
  | 1 => 0
  | 2 => 31
  | 3 => 59
  | 4 => 90
  | 5 => 120
  | 6 => 151
  | 7 => 181
  | 8 => 212
  | 9 => 243
  | 10 => 273
  | 11 => 304
  | 12 => 334
  | _ => 0

/-- Day of year (`date.timetuple().tm_yday`, 1-based). -/
def DateTime.doy (d : DateTime) : ℕ :=
  daysBeforeMonth d.month + (if isLeap d.year ∧ 3 ≤ d.month then 1 else 0) + d.day

/-- A Python value passed as the `date` argument: either a genuine
`datetime.datetime` or some other object (carried as its repr). -/
inductive PyVal where
  | dt (d : DateTime)
  | other (repr : String)

/-- Python exceptions raised by au.earth_sun_dist. -/
inductive PyErr where
  | typeError (msg : String)
  | valueError (msg : String)
deriving DecidableEq

/-- The list of recognized formula names (au.py line 85). -/
def formulaNames : List String := ["Meeus", "Spencer", "Mather", "ESA", "Duffie"]

/-- Message of the ValueError raised for an unrecognized formula
(au.py line 86); Python's list repr is modelled without the quote
characters around each name. -/
def formulaErrMsg : String :=
  "Formula must be one of [" ++ String.intercalate ", " formulaNames ++ "]!"

/-- Message of the TypeError raised for a non-datetime date
(au.py line 45). -/
def dateTypeErrMsg : String := "Date must be of type datetime.datetime!"

/-- Meeus branch of au.earth_sun_dist (au.py lines 49-68): Julian day
from a Gregorian-calendar algorithm, then the two-cosine distance
formula; Python `int()` on the nonnegative intermediate values is
modelled by the floor. -/
noncomputable def meeus (d : DateTime) : ℝ :=
  let year : ℤ := if d.month ≤ 2 then (d.year : ℤ) - 1 else (d.year : ℤ)
  let month : ℕ := if d.month ≤ 2 then d.month + 12 else d.month
  let day : ℕ := d.day
  let ut : ℝ := (d.hour : ℝ) + (d.minute : ℝ) / 60 + (d.second : ℝ) / 3600
  let a : ℤ := ⌊(year : ℝ) / 100⌋
  let b : ℤ := 2 - a + ⌊(a : ℝ) / 4⌋
  let jd : ℝ := (⌊365.25 * ((year : ℝ) + 4716)⌋ : ℤ) + (⌊30.6001 * ((month : ℝ) + 1)⌋ : ℤ)
    + (day : ℝ) + ut / 24.0 + (b : ℝ) - 1524.5
  let dd : ℝ := jd - 2451545.0
  let g : ℝ := radians (357.529 + 0.98560028 * dd)
  1.00014 - 0.01671 * Real.cos g - 0.00014 * Real.cos (2 * g)

/-- Spencer branch of au.earth_sun_dist (au.py lines 70-73); Python
`** 0.5` is modelled by the real power `^ (0.5 : ℝ)`. -/
noncomputable def spencer (doy : ℕ) : ℝ :=
  let p : ℝ := 2 * Real.pi * ((doy : ℝ) - 1) / 365
  (1 / (1.000110 + 0.034221 * Real.cos p + 0.001280 * Real.sin p
    + 0.000719 * Real.cos (2 * p) + 0.000077 * Real.sin (2 * p))) ^ (0.5 : ℝ)

/-- Mather branch of au.earth_sun_dist (au.py lines 75-76); the cosine
argument is used raw, with no degree-to-radian conversion. -/
noncomputable def mather (doy : ℕ) : ℝ :=
  1 / (1 - 0.016729 * Real.cos (0.9856 * ((doy : ℝ) - 4)))

/-- ESA branch of au.earth_sun_dist (au.py lines 78-79). -/
noncomputable def esa (doy : ℕ) : ℝ :=
  1 - 0.016729 * Real.cos ((2 * Real.pi) * (0.9856 * ((doy : ℝ) - 4) / 360))

/-- Duffie branch of au.earth_sun_dist (au.py lines 81-82). -/
noncomputable def duffie (doy : ℕ) : ℝ :=
  1 + 0.033 * Real.cos ((doy : ℝ) * 2 * Real.pi / 365)

/-- Embedding of au.earth_sun_dist: type-check the date, derive the day
of year, then dispatch on the formula string; an unrecognized formula
raises ValueError. -/
noncomputable def earth_sun_dist (date : PyVal) (formula : String) : Except PyErr ℝ :=
  match date with
  | .other _ => .error (.typeError dateTypeErrMsg)
  | .dt d =>
    let doy := d.doy
    if formula = "Meeus" then .ok (meeus d)
    else if formula = "Spencer" then .ok (spencer doy)
    else if formula = "Mather" then .ok (mather doy)
    else if formula = "ESA" then .ok (esa doy)
    else if formula = "Duffie" then .ok (duffie doy)
    else .error (.valueError formulaErrMsg)

end au

namespace au

theorem meeus_shape_bounds (g : ℝ) :
    0.98 ≤ 1.00014 - 0.01671 * Real.cos g - 0.00014 * Real.cos (2 * g) ∧
      1.00014 - 0.01671 * Real.cos g - 0.00014 * Real.cos (2 * g) ≤ 1.02 := by
  constructor <;>
    nlinarith [Real.neg_one_le_cos g, Real.cos_le_one g,
      Real.neg_one_le_cos (2 * g), Real.cos_le_one (2 * g)]

theorem meeus_bounds (d : DateTime) : 0.98 ≤ meeus d ∧ meeus d ≤ 1.02 :=
  meeus_shape_bounds _

theorem inv_sqrt_bounds (S : ℝ) (h1 : 0.963813 ≤ S) (h2 : S ≤ 1.036407) :
    0.98 ≤ (1 / S) ^ (0.5 : ℝ) ∧ (1 / S) ^ (0.5 : ℝ) ≤ 1.02 := by
  have hpos : (0 : ℝ) < S := by linarith
  rw [show (0.5 : ℝ) = 1 / 2 by norm_num, ← Real.sqrt_eq_rpow]
  constructor
  · rw [show (0.98 : ℝ) = Real.sqrt (0.98 ^ 2) from (Real.sqrt_sq (by norm_num)).symm]
    apply Real.sqrt_le_sqrt
    rw [le_div_iff₀ hpos]
    nlinarith
  · rw [show (1.02 : ℝ) = Real.sqrt (1.02 ^ 2) from (Real.sqrt_sq (by norm_num)).symm]
    apply Real.sqrt_le_sqrt
    rw [div_le_iff₀ hpos]
    nlinarith

theorem spencer_shape_bounds (p : ℝ) :
    0.98 ≤ (1 / (1.000110 + 0.034221 * Real.cos p + 0.001280 * Real.sin p
        + 0.000719 * Real.cos (2 * p) + 0.000077 * Real.sin (2 * p))) ^ (0.5 : ℝ) ∧
      (1 / (1.000110 + 0.034221 * Real.cos p + 0.001280 * Real.sin p
        + 0.000719 * Real.cos (2 * p) + 0.000077 * Real.sin (2 * p))) ^ (0.5 : ℝ) ≤ 1.02 := by
  have hc1 := Real.neg_one_le_cos p
  have hc1' := Real.cos_le_one p
  have hs1 := Real.neg_one_le_sin p
  have hs1' := Real.sin_le_one p
  have hc2 := Real.neg_one_le_cos (2 * p)
  have hc2' := Real.cos_le_one (2 * p)
  have hs2 := Real.neg_one_le_sin (2 * p)
  have hs2' := Real.sin_le_one (2 * p)
  exact inv_sqrt_bounds _ (by linarith) (by linarith)

theorem spencer_bounds (doy : ℕ) : 0.98 ≤ spencer doy ∧ spencer doy ≤ 1.02 :=
  spencer_shape_bounds _

theorem mather_shape_bounds (x : ℝ) :
    0.98 ≤ 1 / (1 - 0.016729 * Real.cos x) ∧ 1 / (1 - 0.016729 * Real.cos x) ≤ 1.02 := by
  have h1 := Real.neg_one_le_cos x
  have h2 := Real.cos_le_one x
  have hpos : (0 : ℝ) < 1 - 0.016729 * Real.cos x := by nlinarith
  constructor
  · rw [le_div_iff₀ hpos]; nlinarith
  · rw [div_le_iff₀ hpos]; nlinarith

theorem mather_bounds (doy : ℕ) : 0.98 ≤ mather doy ∧ mather doy ≤ 1.02 :=
  mather_shape_bounds _

theorem esa_bounds (doy : ℕ) : 0.98 ≤ esa doy ∧ esa doy ≤ 1.02 := by
  unfold esa
  constructor <;>
    nlinarith [Real.neg_one_le_cos ((2 * Real.pi) * (0.9856 * ((doy : ℝ) - 4) / 360)),
      Real.cos_le_one ((2 * Real.pi) * (0.9856 * ((doy : ℝ) - 4) / 360))]

theorem duffie_bounds (doy : ℕ) : 0.96 ≤ duffie doy ∧ duffie doy ≤ 1.04 := by
  unfold duffie
  constructor <;>
    nlinarith [Real.neg_one_le_cos ((doy : ℝ) * 2 * Real.pi / 365),
      Real.cos_le_one ((doy : ℝ) * 2 * Real.pi / 365)]

end au

/-- Claim C1: for every band transform (radiance gainbias and scaling,
reflectance gainbias and physical, brightness fromRadiance and
fromDigitalNumber), every cell of the source equal to the nodata
sentinel (exact equality) is mapped to the nodata sentinel in the
output; and for fromDigitalNumber the masking is decided by the
original source array, so a non-nodata source cell always receives the
formula value computed from the intermediate radiance, even if that
intermediate value happens to equal the sentinel. -/
theorem nodata_preserved_all_transforms :
    (∀ (gain bias no_data : ℝ) (src : Band) (i j : ℕ),
      cell src i j = some no_data →
      cell (radiance.gainbias_ar gain bias no_data src) i j = some no_data) ∧
    (∀ (lmin lmax qcalmin qcalmax no_data : ℝ) (src : Band) (i j : ℕ),
      cell src i j = some no_data →
      cell (radiance.scaling_ar lmin lmax qcalmin qcalmax no_data src) i j = some no_data) ∧
    (∀ (gain bias sun_elev no_data : ℝ) (src : Band) (i j : ℕ),
      cell src i j = some no_data →
      cell (reflectance.gainbias_ar gain bias sun_elev no_data src) i j = some no_data) ∧
    (∀ (esd sun_elev esun no_data : ℝ) (src : Band) (i j : ℕ),
      cell src i j = some no_data →
      cell (reflectance.ref_ar esd sun_elev esun no_data src) i j = some no_data) ∧
    (∀ (k1 k2 no_data : ℝ) (src : Band) (i j : ℕ),
      cell src i j = some no_data →
      cell (brightness.toa_rad_to_toa_bright_ar k1 k2 no_data src) i j = some no_data) ∧
    (∀ (gain bias k1 k2 no_data : ℝ) (src : Band) (i j : ℕ),
      cell src i j = some no_data →
      cell (brightness.dn_to_toa_bright_ar gain bias k1 k2 no_data src) i j = some no_data) ∧
    (∀ (gain bias k1 k2 no_data : ℝ) (src : Band) (i j : ℕ) (x : ℝ),
      cell src i j = some x → x ≠ no_data →
      cell (brightness.dn_to_toa_bright_ar gain bias k1 k2 no_data src) i j =
        some (k2 / Real.log (k1 / (gain * x + bias) + 1))) := by
  refine ⟨?_, ?_, ?_, ?_, ?_, ?_, ?_⟩
  · intro gain bias no_data src i j h
    exact cell_mask_map_self _ _ _ _ _ h
  · intro lmin lmax qcalmin qcalmax no_data src i j h
    exact cell_mask_map_self _ _ _ _ _ h
  · intro gain bias sun_elev no_data src i j h
    simp only [reflectance.gainbias_ar]
    rw [mapBand_mapBand]
    exact cell_mask_map_self _ _ _ _ _ h
  · intro esd sun_elev esun no_data src i j h
    simp only [reflectance.ref_ar]
    by_cases hse : sun_elev ≠ 0
    · rw [if_pos hse, mapBand_mapBand]
      exact cell_mask_map_self _ _ _ _ _ h
    · rw [if_neg hse]
      exact cell_mask_map_self _ _ _ _ _ h
  · intro k1 k2 no_data src i j h
    exact cell_mask_map_self _ _ _ _ _ h
  · intro gain bias k1 k2 no_data src i j h
    simp only [brightness.dn_to_toa_bright_ar]
    rw [mapBand_mapBand]
    exact cell_mask_map_self _ _ _ _ _ h
  · intro gain bias k1 k2 no_data src i j x hx hnd
    simp only [brightness.dn_to_toa_bright_ar]
    rw [mapBand_mapBand]
    exact cell_mask_map_of_ne _ _ _ _ _ _ hx hnd

/-- Witness for C1 at the concrete band `[[2, -1], [4, 5]]` with
sentinel `-1`: the sentinel cell at row 0, column 1 is preserved by
all six transforms, and the non-sentinel cell at row 0, column 0 gets
the brightness formula value under fromDigitalNumber. -/
theorem nodata_preserved_all_transforms_witness :
    cell (radiance.gainbias_ar 2 3 (-1) [[2, -1], [4, 5]]) 0 1 = some (-1) ∧
    cell (radiance.scaling_ar 0 10 1 255 (-1) [[2, -1], [4, 5]]) 0 1 = some (-1) ∧
    cell (reflectance.gainbias_ar 2 3 45 (-1) [[2, -1], [4, 5]]) 0 1 = some (-1) ∧
    cell (reflectance.ref_ar 1 45 1000 (-1) [[2, -1], [4, 5]]) 0 1 = some (-1) ∧
    cell (brightness.toa_rad_to_toa_bright_ar 600 1300 (-1) [[2, -1], [4, 5]]) 0 1 = some (-1) ∧
    cell (brightness.dn_to_toa_bright_ar 2 3 600 1300 (-1) [[2, -1], [4, 5]]) 0 1 = some (-1) ∧
    cell (brightness.dn_to_toa_bright_ar 1 0 600 1300 (-1) [[2, -1], [4, 5]]) 0 0 =
      some (1300 / Real.log (600 / (1 * 2 + 0) + 1)) :=
  ⟨nodata_preserved_all_transforms.1 2 3 (-1) _ 0 1 rfl,
    nodata_preserved_all_transforms.2.1 0 10 1 255 (-1) _ 0 1 rfl,
    nodata_preserved_all_transforms.2.2.1 2 3 45 (-1) _ 0 1 rfl,
    nodata_preserved_all_transforms.2.2.2.1 1 45 1000 (-1) _ 0 1 rfl,
    nodata_preserved_all_transforms.2.2.2.2.1 600 1300 (-1) _ 0 1 rfl,
    nodata_preserved_all_transforms.2.2.2.2.2.1 2 3 600 1300 (-1) _ 0 1 rfl,
    nodata_preserved_all_transforms.2.2.2.2.2.2 1 0 600 1300 (-1) _ 0 0 2 rfl (by norm_num)⟩

/-- Claim C2: the physical reflectance transform computes, at every
non-nodata cell holding `x`, the value
`(pi * x * earth_sun_dist^2 / esun) * cos(radians(90 - sun_elev))`,
and divides it by `sin(radians(sun_elev))` exactly when `sun_elev` is
nonzero; when `sun_elev = 0` no elevation division is performed. -/
theorem ref_formula_and_elev_guard (esd sun_elev esun no_data : ℝ) (src : Band)
    (i j : ℕ) (x : ℝ) (hx : cell src i j = some x) (hnd : x ≠ no_data) :
    cell (reflectance.ref_ar esd sun_elev esun no_data src) i j =
      some (if sun_elev = 0 then
          Real.pi * x * esd ^ 2 / esun * Real.cos (radians (90 - sun_elev))
        else
          Real.pi * x * esd ^ 2 / esun * Real.cos (radians (90 - sun_elev)) /
            Real.sin (radians sun_elev)) := by
  simp only [reflectance.ref_ar]
  by_cases hse : sun_elev = 0
  · rw [if_pos hse, if_neg (by simpa using hse)]
    exact cell_mask_map_of_ne _ _ _ _ _ _ hx hnd
  · rw [if_neg hse, if_pos hse, mapBand_mapBand]
    exact cell_mask_map_of_ne _ _ _ _ _ _ hx hnd

/-- Witness for C2: at sun elevation 30 the non-nodata cell holding 5
gets the physical formula value with the elevation division. -/
theorem ref_formula_and_elev_guard_witness :
    cell (reflectance.ref_ar 1 30 2 (-1) [[5]]) 0 0 =
      some (if (30 : ℝ) = 0 then
          Real.pi * 5 * (1 : ℝ) ^ 2 / 2 * Real.cos (radians (90 - 30))
        else
          Real.pi * 5 * (1 : ℝ) ^ 2 / 2 * Real.cos (radians (90 - 30)) /
            Real.sin (radians 30)) :=
  ref_formula_and_elev_guard 1 30 2 (-1) [[5]] 0 0 5 rfl (by norm_num)

/-- Claim C3: brightness fromDigitalNumber with gain 1 and bias 0
produces, on every input array, exactly the same output as brightness
fromRadiance with the same calibration constants, including identical
nodata masking. -/
theorem dn_gain1_bias0_eq_from_radiance (k1 k2 no_data : ℝ) (src : Band) :
    brightness.dn_to_toa_bright_ar 1 0 k1 k2 no_data src =
      brightness.toa_rad_to_toa_bright_ar k1 k2 no_data src := by
  simp only [brightness.dn_to_toa_bright_ar, brightness.toa_rad_to_toa_bright_ar,
    mapBand_mapBand, one_mul, add_zero]

/-- Claim C4: the radiance gainbias transform computes
`gain * source + bias` at every non-nodata cell, and on the band
`[[10, 20], [-1, 30]]` with nodata `-1`, gain `0.1` and bias `5` it
produces `[[6, 7], [-1, 8]]`. -/
theorem radiance_gainbias_linear :
    (∀ (gain bias no_data : ℝ) (src : Band) (i j : ℕ) (x : ℝ),
      cell src i j = some x → x ≠ no_data →
      cell (radiance.gainbias_ar gain bias no_data src) i j = some (gain * x + bias)) ∧
    radiance.gainbias_ar 0.1 5 (-1) [[10, 20], [-1, 30]] = [[6, 7], [-1, 8]] := by
  constructor
  · intro gain bias no_data src i j x hx hnd
    exact cell_mask_map_of_ne _ _ _ _ _ _ hx hnd
  · simp only [radiance.gainbias_ar]
    rw [maskBand_mapBand]
    norm_num [mapBand]

/-- Witness for C4: the non-nodata cell holding 10 maps to
`0.1 * 10 + 5`. -/
theorem radiance_gainbias_linear_witness :
    cell (radiance.gainbias_ar 0.1 5 (-1) [[10, 20], [-1, 30]]) 0 0 =
      some (0.1 * 10 + 5) :=
  radiance_gainbias_linear.1 0.1 5 (-1) [[10, 20], [-1, 30]] 0 0 10 rfl (by norm_num)

/-- Claim C5: under the radiance scaling transform with
`qcalmax ≠ qcalmin`, a non-nodata source cell equal to `qcalmin` maps
exactly to `lmin`, and one equal to `qcalmax` maps exactly to `lmax`. -/
theorem radiance_scaling_endpoints (lmin lmax qcalmin qcalmax no_data : ℝ) (src : Band)
    (i j : ℕ) (hq : qcalmax ≠ qcalmin) :
    (cell src i j = some qcalmin → qcalmin ≠ no_data →
      cell (radiance.scaling_ar lmin lmax qcalmin qcalmax no_data src) i j = some lmin) ∧
    (cell src i j = some qcalmax → qcalmax ≠ no_data →
      cell (radiance.scaling_ar lmin lmax qcalmin qcalmax no_data src) i j = some lmax) := by
  have hq0 : qcalmax - qcalmin ≠ 0 := sub_ne_zero_of_ne hq
  constructor
  · intro hx hnd
    have h := cell_mask_map_of_ne no_data qcalmin
      (fun s => ((lmax - lmin) / (qcalmax - qcalmin)) * (s - qcalmin) + lmin) src i j hx hnd
    simp only [radiance.scaling_ar]
    rw [h]
    congr 1
    show (lmax - lmin) / (qcalmax - qcalmin) * (qcalmin - qcalmin) + lmin = lmin
    rw [sub_self, mul_zero, zero_add]
  · intro hx hnd
    have h := cell_mask_map_of_ne no_data qcalmax
      (fun s => ((lmax - lmin) / (qcalmax - qcalmin)) * (s - qcalmin) + lmin) src i j hx hnd
    simp only [radiance.scaling_ar]
    rw [h]
    congr 1
    show (lmax - lmin) / (qcalmax - qcalmin) * (qcalmax - qcalmin) + lmin = lmax
    rw [div_mul_cancel₀ _ hq0]
    ring

/-- Witness for C5 with `lmin = 2`, `lmax = 10`, `qcalmin = 1`,
`qcalmax = 255` on the band `[[1, 255]]`: the cell holding 1 maps to 2
and the cell holding 255 maps to 10. -/
theorem radiance_scaling_endpoints_witness :
    cell (radiance.scaling_ar 2 10 1 255 (-1) [[1, 255]]) 0 0 = some 2 ∧
    cell (radiance.scaling_ar 2 10 1 255 (-1) [[1, 255]]) 0 1 = some 10 :=
  ⟨(radiance_scaling_endpoints 2 10 1 255 (-1) [[1, 255]] 0 0 (by norm_num)).1
      rfl (by norm_num),
    (radiance_scaling_endpoints 2 10 1 255 (-1) [[1, 255]] 0 1 (by norm_num)).2
      rfl (by norm_num)⟩

/-- Claim C10: toar.toa_reflectance computes exactly the same output
array as toar.toa_radiance and as radiance.gainbias for the same
arguments — a plain `gain * source + bias` with nodata masking and no
sun-elevation correction of any kind. -/
theorem toar_reflectance_is_gainbias (gain bias no_data : ℝ) (src : Band) :
    toar.toa_reflectance_ar gain bias no_data src =
        toar.toa_radiance_ar gain bias no_data src ∧
      toar.toa_reflectance_ar gain bias no_data src =
        radiance.gainbias_ar gain bias no_data src :=
  ⟨rfl, rfl⟩

/-- Claim C6: every conversion operation run against a destination path
that already exists fails with the AlreadyExists error and returns the
file system unchanged, regardless of the source path or parameters —
in particular the failure happens even when the source is unreadable,
so no source read or formula computation precedes it, no new file is
created, and the existing destination file is untouched. -/
theorem dest_exists_short_circuits (fs : FS) (input_scene output_scene : String)
    (h : (fs.lookup output_scene).isSome = true) :
    (∀ gain bias : ℝ, radiance.gainbias fs input_scene gain bias output_scene =
      (fs, .error (.alreadyExists output_scene))) ∧
    (∀ lmin lmax qcalmin qcalmax : ℝ,
      radiance.scaling fs input_scene lmin lmax qcalmin qcalmax output_scene =
        (fs, .error (.alreadyExists output_scene))) ∧
    (∀ gain bias sun_elev : ℝ,
      reflectance.gainbias fs input_scene gain bias sun_elev output_scene =
        (fs, .error (.alreadyExists output_scene))) ∧
    (∀ esd sun_elev esun : ℝ,
      reflectance.ref fs input_scene esd sun_elev esun output_scene =
        (fs, .error (.alreadyExists output_scene))) ∧
    (∀ k1 k2 : ℝ,
      brightness.toa_rad_to_toa_bright fs input_scene k1 k2 output_scene =
        (fs, .error (.alreadyExists output_scene))) ∧
    (∀ gain bias k1 k2 : ℝ,
      brightness.dn_to_toa_bright fs input_scene gain bias k1 k2 output_scene =
        (fs, .error (.alreadyExists output_scene))) ∧
    (∀ gain bias : ℝ, toar.toa_radiance fs input_scene gain bias output_scene =
      (fs, .error (.alreadyExists output_scene))) ∧
    (∀ gain bias : ℝ, toar.toa_reflectance fs input_scene gain bias output_scene =
      (fs, .error (.alreadyExists output_scene))) ∧
    (∀ k1 k2 : ℝ, toar.toa_brightness fs input_scene k1 k2 output_scene =
      (fs, .error (.alreadyExists output_scene))) := by
  refine ⟨fun gain bias => ?_, fun lmin lmax qcalmin qcalmax => ?_,
    fun gain bias sun_elev => ?_, fun esd sun_elev esun => ?_, fun k1 k2 => ?_,
    fun gain bias k1 k2 => ?_, fun gain bias => ?_, fun gain bias => ?_,
    fun k1 k2 => ?_⟩ <;>
  simp [radiance.gainbias, radiance.scaling, reflectance.gainbias, reflectance.ref,
    brightness.toa_rad_to_toa_bright, brightness.dn_to_toa_bright, toar.toa_radiance,
    toar.toa_reflectance, toar.toa_brightness, h]

/-- Witness for C6 on a one-file file system whose only file is the
destination path: all nine conversions fail with AlreadyExists and
leave the file system as it was. -/
theorem dest_exists_short_circuits_witness :
    (radiance.gainbias [("out.tif", ⟨[[0]], -1, ⟨[], ""⟩⟩)] "in.tif" 1 2 "out.tif" =
      ([("out.tif", ⟨[[0]], -1, ⟨[], ""⟩⟩)], .error (.alreadyExists "out.tif"))) ∧
    (radiance.scaling [("out.tif", ⟨[[0]], -1, ⟨[], ""⟩⟩)] "in.tif" 0 10 1 255 "out.tif" =
      ([("out.tif", ⟨[[0]], -1, ⟨[], ""⟩⟩)], .error (.alreadyExists "out.tif"))) ∧
    (reflectance.gainbias [("out.tif", ⟨[[0]], -1, ⟨[], ""⟩⟩)] "in.tif" 1 2 45 "out.tif" =
      ([("out.tif", ⟨[[0]], -1, ⟨[], ""⟩⟩)], .error (.alreadyExists "out.tif"))) ∧
    (reflectance.ref [("out.tif", ⟨[[0]], -1, ⟨[], ""⟩⟩)] "in.tif" 1 45 1000 "out.tif" =
      ([("out.tif", ⟨[[0]], -1, ⟨[], ""⟩⟩)], .error (.alreadyExists "out.tif"))) ∧
    (brightness.toa_rad_to_toa_bright [("out.tif", ⟨[[0]], -1, ⟨[], ""⟩⟩)] "in.tif" 600 1300
        "out.tif" =
      ([("out.tif", ⟨[[0]], -1, ⟨[], ""⟩⟩)], .error (.alreadyExists "out.tif"))) ∧
    (brightness.dn_to_toa_bright [("out.tif", ⟨[[0]], -1, ⟨[], ""⟩⟩)] "in.tif" 1 2 600 1300
        "out.tif" =
      ([("out.tif", ⟨[[0]], -1, ⟨[], ""⟩⟩)], .error (.alreadyExists "out.tif"))) ∧
    (toar.toa_radiance [("out.tif", ⟨[[0]], -1, ⟨[], ""⟩⟩)] "in.tif" 1 2 "out.tif" =
      ([("out.tif", ⟨[[0]], -1, ⟨[], ""⟩⟩)], .error (.alreadyExists "out.tif"))) ∧
    (toar.toa_reflectance [("out.tif", ⟨[[0]], -1, ⟨[], ""⟩⟩)] "in.tif" 1 2 "out.tif" =
      ([("out.tif", ⟨[[0]], -1, ⟨[], ""⟩⟩)], .error (.alreadyExists "out.tif"))) ∧
    (toar.toa_brightness [("out.tif", ⟨[[0]], -1, ⟨[], ""⟩⟩)] "in.tif" 600 1300 "out.tif" =
      ([("out.tif", ⟨[[0]], -1, ⟨[], ""⟩⟩)], .error (.alreadyExists "out.tif"))) := by
  have h := dest_exists_short_circuits [("out.tif", ⟨[[0]], -1, ⟨[], ""⟩⟩)]
    "in.tif" "out.tif" (by simp [List.lookup])
  exact ⟨h.1 1 2, h.2.1 0 10 1 255, h.2.2.1 1 2 45, h.2.2.2.1 1 45 1000,
    h.2.2.2.2.1 600 1300, h.2.2.2.2.2.1 1 2 600 1300, h.2.2.2.2.2.2.1 1 2,
    h.2.2.2.2.2.2.2.1 1 2, h.2.2.2.2.2.2.2.2 600 1300⟩

/-- Claim C7 (amended): for every calendar date-time, the Meeus,
Spencer, Mather and ESA formulas return a distance in [0.98, 1.02] AU,
while the Duffie formula is only bounded by [0.96, 1.04] AU (its value
reaches 1.033 near perihelion, outside [0.98, 1.02]). -/
theorem esd_range_all_formulas (d : au.DateTime) :
    (∃ r, au.earth_sun_dist (.dt d) "Meeus" = .ok r ∧ 0.98 ≤ r ∧ r ≤ 1.02) ∧
    (∃ r, au.earth_sun_dist (.dt d) "Spencer" = .ok r ∧ 0.98 ≤ r ∧ r ≤ 1.02) ∧
    (∃ r, au.earth_sun_dist (.dt d) "Mather" = .ok r ∧ 0.98 ≤ r ∧ r ≤ 1.02) ∧
    (∃ r, au.earth_sun_dist (.dt d) "ESA" = .ok r ∧ 0.98 ≤ r ∧ r ≤ 1.02) ∧
    (∃ r, au.earth_sun_dist (.dt d) "Duffie" = .ok r ∧ 0.96 ≤ r ∧ r ≤ 1.04) :=
  ⟨⟨au.meeus d, by simp [au.earth_sun_dist], au.meeus_bounds d⟩,
    ⟨au.spencer d.doy, by simp [au.earth_sun_dist], au.spencer_bounds d.doy⟩,
    ⟨au.mather d.doy, by simp [au.earth_sun_dist], au.mather_bounds d.doy⟩,
    ⟨au.esa d.doy, by simp [au.earth_sun_dist], au.esa_bounds d.doy⟩,
    ⟨au.duffie d.doy, by simp [au.earth_sun_dist], au.duffie_bounds d.doy⟩⟩

/-- Counterexample to C7 as stated: on December 31, 2019 (day of year
365) the Duffie formula returns `1 + 0.033 * cos(2 * pi) = 1.033`,
which exceeds the claimed upper bound 1.02. -/
theorem esd_duffie_exceeds_claimed_bound :
    au.earth_sun_dist (.dt ⟨2019, 12, 31, 0, 0, 0⟩) "Duffie" =
        .ok (1 + 0.033 * Real.cos ((365 : ℝ) * 2 * Real.pi / 365)) ∧
      1.02 < 1 + 0.033 * Real.cos ((365 : ℝ) * 2 * Real.pi / 365) := by
  constructor
  · have hdoy : au.DateTime.doy ⟨2019, 12, 31, 0, 0, 0⟩ = 365 := by
      simp [au.DateTime.doy, au.daysBeforeMonth, au.isLeap]
    simp [au.earth_sun_dist, au.duffie, hdoy]
  · have h : (365 : ℝ) * 2 * Real.pi / 365 = 2 * Real.pi := by ring
    rw [h, Real.cos_two_pi]
    norm_num

/-- Claim C8: for every date, the Mather formula returns exactly
`1 / (1 - 0.016729 * cos(0.9856 * (doy - 4)))`, the cosine taken of
the raw value with no degree-to-radian conversion. -/
theorem esd_mather_raw_cosine (d : au.DateTime) :
    au.earth_sun_dist (.dt d) "Mather" =
      .ok (1 / (1 - 0.016729 * Real.cos (0.9856 * ((d.doy : ℝ) - 4)))) := by
  simp [au.earth_sun_dist, au.mather]

/-- Claim C9: an unrecognized formula string yields the ValueError
whose message enumerates the five valid options, for any date; a
non-datetime date argument yields a TypeError for any formula; in
both cases no distance is returned. -/
theorem esd_invalid_inputs :
    (∀ (d : au.DateTime) (formula : String), formula ∉ au.formulaNames →
      au.earth_sun_dist (.dt d) formula = .error (.valueError au.formulaErrMsg)) ∧
    (∀ (r formula : String),
      au.earth_sun_dist (.other r) formula = .error (.typeError au.dateTypeErrMsg)) ∧
    au.formulaErrMsg = "Formula must be one of [Meeus, Spencer, Mather, ESA, Duffie]!" := by
  refine ⟨?_, fun r formula => rfl, by rfl⟩
  intro d formula hf
  have h1 : formula ≠ "Meeus" := fun h => hf (by rw [h]; simp [au.formulaNames])
  have h2 : formula ≠ "Spencer" := fun h => hf (by rw [h]; simp [au.formulaNames])
  have h3 : formula ≠ "Mather" := fun h => hf (by rw [h]; simp [au.formulaNames])
  have h4 : formula ≠ "ESA" := fun h => hf (by rw [h]; simp [au.formulaNames])
  have h5 : formula ≠ "Duffie" := fun h => hf (by rw [h]; simp [au.formulaNames])
  simp [au.earth_sun_dist, h1, h2, h3, h4, h5]

/-- Witness for C9: the formula string "Gauss" is not one of the five
valid names and produces the ValueError; an integer-like date produces
the TypeError. -/
theorem esd_invalid_inputs_witness :
    au.earth_sun_dist (.dt ⟨2020, 1, 1, 0, 0, 0⟩) "Gauss" =
        .error (.valueError au.formulaErrMsg) ∧
      au.earth_sun_dist (.other "5") "Meeus" = .error (.typeError au.dateTypeErrMsg) :=
  ⟨esd_invalid_inputs.1 ⟨2020, 1, 1, 0, 0, 0⟩ "Gauss" (by decide),
    esd_invalid_inputs.2.1 "5" "Meeus"⟩

end LandsatUtils
